import Mathlib

/-
Verification of the request-rewriting core of the swift proxy middlewares:
`swift/common/middleware/data_migration.py`,
`swift/common/middleware/server_side_copy.py`,
`swift/common/copy_helper.py`,
`swift/common/data_migration_common.py` and
`swift/common/data_migrator_drivers.py`.

The Python code is shallowly embedded: requests and responses are explicit
structures, WSGI environ flags are explicit fields, the downstream WSGI
application and the internal sub-request facility are oracles passed as
function arguments, and Python exceptions are `Except` values.  Python
strings are Lean `String`, Python dict-like header objects are association
lists with the case-insensitive lookup that swob's header proxies perform.
-/

set_option autoImplicit false

/-! ## Python / swift utility primitives

String helpers are written over `List Char` so that every definition reduces
in the kernel.  Each models the exact library routine named in its comment.
-/

/-- Python str.lower (ASCII, as used on header names and config values). -/
def pyLower (s : String) : String := ⟨s.toList.map Char.toLower⟩

/-- Python str.upper-like helper used by `pyTitle`. -/
def charTitleStep (prevAlpha : Bool) (c : Char) : Char :=
  if c.isAlpha then (if prevAlpha then c.toLower else c.toUpper) else c

/-- Python str.title on ASCII text: the first letter of every run of letters
is uppercased, the following letters lowercased (data_migration uses it on
driver key names, e.g. "token-url".title() = "Token-Url"). -/
def pyTitleAux : Bool → List Char → List Char
  | _, [] => []
  | prevAlpha, c :: cs =>
    charTitleStep prevAlpha c :: pyTitleAux c.isAlpha cs

def pyTitle (s : String) : String := ⟨pyTitleAux false s.toList⟩

/-- Python whitespace characters relevant to str.strip / int(). -/
def isPySpace (c : Char) : Bool :=
  c = ' ' ∨ c = '\t' ∨ c = '\n' ∨ c = '\r' ∨ c = '\x0b' ∨ c = '\x0c'

/-- Python str.strip() with no arguments. -/
def pyStrip (s : String) : String :=
  ⟨((s.toList.dropWhile isPySpace).reverse.dropWhile isPySpace).reverse⟩

/-- Leading-match test: pat is an initial run of cs. -/
def leadMatch : List Char → List Char → Bool
  | [], _ => true
  | _ :: _, [] => false
  | p :: ps, c :: cs => p = c && leadMatch ps cs

/-- Contiguous-subsequence test over char lists (Python `pat in s`). -/
def containsSeq (pat : List Char) : List Char → Bool
  | [] => leadMatch pat []
  | c :: cs => leadMatch pat (c :: cs) || containsSeq pat cs

/-- Python substring test `pat in s`. -/
def strContains (s pat : String) : Bool := containsSeq pat.toList s.toList

/-- Python str.startswith over our char-list machinery. -/
def strStarts (s pat : String) : Bool := leadMatch pat.toList s.toList

/-- Python truthiness of an optional string (`if value:`): a value is truthy
when present and non-empty. -/
def pyTruthyO : Option String → Bool
  | none => false
  | some s => decide (s ≠ "")

/-- Python falsiness (`if not value:`). -/
def pyFalsyO (v : Option String) : Bool := !pyTruthyO v

/-- swift.common.utils.config_true_value (collaborator outside src/):
value.lower() is a member of TRUE_VALUES = ('true', '1', 'yes', 'on', 't', 'y'). -/
def config_true_value (v : String) : Bool :=
  let l := pyLower v
  decide (l = "true" ∨ l = "1" ∨ l = "yes" ∨ l = "on" ∨ l = "t" ∨ l = "y")

/-- Value of a digit run, if every char is a decimal digit and the run is
non-empty. -/
def digitsVal? (cs : List Char) : Option Nat :=
  if cs = [] then none
  else if cs.all Char.isDigit then
    some (cs.foldl (fun n c => 10 * n + (c.toNat - 48)) 0)
  else none

/-- Python 2 int(str): optional surrounding whitespace, optional sign, then a
non-empty run of decimal digits; anything else raises ValueError (modelled as
`none`). -/
def pyInt? (s : String) : Option Int :=
  match (pyStrip s).toList with
  | '+' :: cs => (digitsVal? cs).map (fun n => (n : Int))
  | '-' :: cs => (digitsVal? cs).map (fun n => -(n : Int))
  | cs => (digitsVal? cs).map (fun n => (n : Int))

/-- Uppercase hex digit of a value below 16. -/
def hexUpper (n : Nat) : Char := if n < 10 then Char.ofNat (48 + n) else Char.ofNat (55 + n)

/-- One character of urllib.quote with the default safe set: letters, digits,
'_', '.', '-' and '/' pass through, everything else is percent-encoded. -/
def quoteChar (c : Char) : List Char :=
  if c.isAlphanum ∨ c = '_' ∨ c = '.' ∨ c = '-' ∨ c = '/' then [c]
  else ['%', hexUpper (c.toNat / 16 % 16), hexUpper (c.toNat % 16)]

/-- urllib.quote (collaborator outside src/) with default safe='/'. -/
def pyQuote (s : String) : String := ⟨(s.toList.map quoteChar).flatten⟩

/-- Hex digit value, accepting both cases, as int(x, 16) does per digit. -/
def hexVal? (c : Char) : Option Nat :=
  if '0' ≤ c ∧ c ≤ '9' then some (c.toNat - 48)
  else if 'A' ≤ c ∧ c ≤ 'F' then some (c.toNat - 55)
  else if 'a' ≤ c ∧ c ≤ 'f' then some (c.toNat - 87)
  else none

/-- Full split of a char list at a separator (Python s.split(sep)). -/
def splitChar (sep : Char) : List Char → List (List Char)
  | [] => [[]]
  | c :: rest =>
    if c = sep then [] :: splitChar sep rest
    else
      match splitChar sep rest with
      | h :: t => (c :: h) :: t
      | [] => [[c]]

/-- Bounded split (Python s.split(sep, maxsplit)). -/
def splitCharMax (sep : Char) : Nat → List Char → List (List Char)
  | _, [] => [[]]
  | 0, cs => [cs]
  | fuel + 1, c :: rest =>
    if c = sep then [] :: splitCharMax sep fuel rest
    else
      match splitCharMax sep (fuel + 1) rest with
      | h :: t => (c :: h) :: t
      | [] => [[c]]

/-- One piece of urllib.unquote's split-on-'%' loop: a piece beginning with
two hex digits decodes its first byte, anything else keeps its '%'. -/
def unquotePart (p : List Char) : List Char :=
  match p with
  | a :: b :: rest =>
    match hexVal? a, hexVal? b with
    | some x, some y => Char.ofNat (16 * x + y) :: rest
    | _, _ => '%' :: p
  | _ => '%' :: p

/-- urllib.unquote (collaborator outside src/), implemented as Python 2 does:
split on '%', keep the first piece, decode the head of each later piece when
it is a valid escape and otherwise restore the '%'. -/
def pyUnquote (s : String) : String :=
  match splitChar '%' s.toList with
  | [] => s
  | h :: parts => ⟨h ++ (parts.map unquotePart).flatten⟩

/-- Segment list of a path string: split at '/' and drop the empty segment a
leading '/' produces. -/
def pathSegs (s : String) : List String :=
  match (splitChar '/' s.toList).map (fun l => (⟨l⟩ : String)) with
  | "" :: t => t
  | t => t

/-- Join path segments back with '/'. -/
def joinSlash : List String → String
  | [] => ""
  | [s] => s
  | s :: rest => s ++ "/" ++ joinSlash rest

/-! ## Association lists: exact-key dicts and case-insensitive header maps -/

abbrev Headers := List (String × String)

/-- Exact-key lookup (Python dict access). -/
def assocFind {α : Type} (l : List (String × α)) (k : String) : Option α :=
  match l with
  | [] => none
  | p :: rest => if p.1 = k then some p.2 else assocFind rest k

/-- Exact-key lookup with default (Python dict.get(k, d)). -/
def lookupD (l : List (String × String)) (k d : String) : String :=
  (assocFind l k).getD d

/-- Exact-key dict assignment: replace in place or append (Python d[k] = v). -/
def assocSet (l : List (String × String)) (k v : String) : List (String × String) :=
  match l with
  | [] => [(k, v)]
  | p :: rest => if p.1 = k then (k, v) :: rest else p :: assocSet rest k v

/-- Case-insensitive header lookup (swob header proxies canonicalise names). -/
def hGet (hs : Headers) (k : String) : Option String :=
  match hs with
  | [] => none
  | p :: rest => if pyLower p.1 = pyLower k then some p.2 else hGet rest k

/-- Header lookup with default (headers.get(k, d)). -/
def hGetD (hs : Headers) (k d : String) : String := (hGet hs k).getD d

/-- Case-insensitive header assignment (headers[k] = v). -/
def hSet (hs : Headers) (k v : String) : Headers :=
  match hs with
  | [] => [(k, v)]
  | p :: rest => if pyLower p.1 = pyLower k then (p.1, v) :: rest else p :: hSet rest k v

/-- Case-insensitive header removal (headers.pop(k, None) / del headers[k]). -/
def hDel (hs : Headers) (k : String) : Headers :=
  match hs with
  | [] => []
  | p :: rest => if pyLower p.1 = pyLower k then hDel rest k else p :: hDel rest k

/-- swift.common.request_helpers.remove_items (collaborator outside src/):
delete every header whose name satisfies the condition. -/
def removeItems (hs : Headers) (cond : String → Bool) : Headers :=
  match hs with
  | [] => []
  | p :: rest => if cond p.1 then removeItems rest cond else p :: removeItems rest cond

/-- Case-insensitive assignment of an optional value: swob header proxies
delete the key when None is assigned. -/
def hSetOpt (hs : Headers) (k : String) (v : Option String) : Headers :=
  match v with
  | some x => hSet hs k x
  | none => hDel hs k

/-- Header copy loop shared by copy_header_subset and copy_headers_into
(collaborators outside src/): for every (k, v) of src with cond k, assign
dst[k] = v. -/
def headerCopyIf (cond : String → Bool) (src dst : Headers) : Headers :=
  match src with
  | [] => dst
  | p :: rest => headerCopyIf cond rest (if cond p.1 then hSet dst p.1 p.2 else dst)

/-- swift.common.request_helpers.is_user_meta('object', k) (collaborator
outside src/); the 'x-object-meta-' naming convention is also used by
`upload_object` in src/swift/common/data_migration_common.py. -/
def isUserMetaObj (k : String) : Bool := strStarts (pyLower k) "x-object-meta-"

/-- swift.common.request_helpers.is_sys_meta('object', k) (collaborator
outside src/); the sysmeta naming convention is also visible in
src/swift/common/data_migration_common.py ('X-Object-Sysmeta-'). -/
def isSysMetaObj (k : String) : Bool := strStarts (pyLower k) "x-object-sysmeta-"

def isSysOrUserMetaObj (k : String) : Bool := isUserMetaObj k || isSysMetaObj k

/-- Condition of swift.proxy.controllers.obj.copy_headers_into. Modelled from
the spec: normal-mode copy transfers the source's system and user metadata
(plus the delete-at marker) onto the sink. -/
def metaCondObj (k : String) : Bool := isSysOrUserMetaObj k || pyLower k = "x-delete-at"

/-- First-wins combination of optional values (dict overwrite composition). -/
def optOr (a b : Option String) : Option String :=
  match a with
  | some x => some x
  | none => b

/-! ## Requests, responses and path splitting -/

/-- An HTTP response as buffered by a WSGIContext: status, header list, body
and the parsed Content-Length (swob's content_length property, `none` for an
indeterminate length). -/
structure Resp where
  status : Nat
  headers : Headers
  body : String
  contentLength : Option Nat
deriving DecidableEq, Repr

/-- An inbound request: method, the PATH_INFO segments (a trailing segment
may itself contain '/' once a rest-with-last split has folded it), headers,
query parameters, and the environ flags this core reads and writes
('swift.orig_req_method' and 'swift.post_as_copy'). -/
structure Req where
  method : String
  segs : List String
  headers : Headers
  queryParams : List (String × String)
  envOrigMethod : Option String
  envPostAsCopy : Bool
deriving DecidableEq, Repr

/-- swift.common.http.is_success (collaborator outside src/). -/
def is_success (s : Nat) : Bool := decide (200 ≤ s ∧ s ≤ 299)

/-- swift.common.utils.split_path(path, 4, 4, True) (collaborator outside
src/): exactly version/account/container/object, each non-empty, the object
being the rest of the path. -/
def split_path_4_4 (segs : List String) : Option (String × String × String × String) :=
  match segs with
  | v :: a :: c :: rest =>
    let o := joinSlash rest
    if v ≠ "" ∧ a ≠ "" ∧ c ≠ "" ∧ o ≠ "" then some (v, a, c, o) else none
  | _ => none

/-- swift.common.utils.split_path(path, 3, 4, True): version, account and
container non-empty, an optional object rest (which the caller may find
empty). -/
def split_path_3_4 (segs : List String) : Option (String × String × String × Option String) :=
  match segs with
  | [v, a, c] => if v ≠ "" ∧ a ≠ "" ∧ c ≠ "" then some (v, a, c, none) else none
  | v :: a :: c :: rest =>
    if v ≠ "" ∧ a ≠ "" ∧ c ≠ "" then some (v, a, c, some (joinSlash rest)) else none
  | _ => none

/-! ## Data migration middleware (src/swift/common/middleware/data_migration.py) -/

/-- Outcome kind of the early returns in DataMigrationMiddleware.__call__'s
setup-validation block; `preconditionFailed` is swob's 412 response and
`badRequest` swob's 400 response. -/
inductive SetupErr where
  | preconditionFailed (msg : String)
  | badRequest (msg : String)
deriving DecidableEq, Repr

def SetupErr.statusCode : SetupErr → Nat
  | .preconditionFailed _ => 412
  | .badRequest _ => 400

/-- Python exception classes crossing the driver-constructor boundary:
DataMigrationDriverError versus any other exception. -/
inductive CtorErr where
  | driverError (msg : String)
  | plainError (msg : String)
deriving DecidableEq, Repr

/-- A constructed driver instance.  The two shipped drivers record exactly
the fields their Python __init__ stores. -/
inductive MigDriver where
  | swiftDriver (data_source token_url user key : String)
  | fsDriver (data_source : String)
deriving DecidableEq, Repr

/-- A driver class as stored in the registry: its constructor
the_class(data_source, params). -/
structure DriverClass where
  construct : String → List (String × String) → Except CtorErr MigDriver

/-- One registry entry built by filter_factory: required keys, the resolved
class, its driver_loaded capability flag, and additional static parameters. -/
structure MigEntry where
  keys : List String
  the_class : DriverClass
  driver_loaded : Bool
  additional_params : List (String × String)

abbrev MigrationConf := List (String × MigEntry)

/-- SwiftAccessDriver.__init__ from src/swift/common/data_migrator_drivers.py:
stores data_source and params.get of 'token-url', 'user', 'key' with default
''; it never raises. -/
def SwiftAccessDriverClass : DriverClass :=
  ⟨fun ds params =>
    .ok (.swiftDriver ds (lookupD params "token-url" "")
          (lookupD params "user" "") (lookupD params "key" ""))⟩

/-- os.path.join of two components (collaborator): an absolute second
component wins; otherwise join with a single '/'. -/
def osJoin2 (a b : String) : String :=
  if strStarts b "/" then b
  else if a = "" ∨ leadMatch ['/'] a.toList.reverse then a ++ b
  else a ++ "/" ++ b

/-- FileSystemAccessDriver.is_valid_path: a None path raises a plain
Exception; an empty or '..'-containing path is invalid. Encoded as
`none` = plain exception, `some b` = validity. -/
def fsIsValidPath (p : Option String) : Option Bool :=
  match p with
  | none => none
  | some s => some (!(pyStrip s = "" ∨ strContains s ".."))

/-- FileSystemAccessDriver.__init__ from
src/swift/common/data_migrator_drivers.py: validates
driver_fsystem_parent_path and the data source, strips a leading separator
from the source and joins it under the parent path. -/
def FileSystemAccessDriverClass : DriverClass :=
  ⟨fun ds params =>
    match fsIsValidPath (assocFind params "driver_fsystem_parent_path") with
    | none =>
      .error (.plainError ("driver_fsystem_parent_path parameter should be " ++
        "configured in proxy-server.conf"))
    | some rootOk =>
      let root := lookupD params "driver_fsystem_parent_path" ""
      if !rootOk then
        .error (.driverError ("driver_fsystem_parent_path: " ++ root ++ "  is invalid"))
      else if pyStrip ds = "" ∨ strContains ds ".." then
        .error (.driverError ("Migration source " ++ ds ++ " is invalid"))
      else
        let ds2 := if strStarts ds "/" then (⟨ds.toList.drop 1⟩ : String) else ds
        .ok (.fsDriver (osJoin2 (osJoin2 "/" root) ds2))⟩

/-- DataMigrationMiddleware.__call__, lines 168-204: validation of a
container-level migration setup request's headers against the registry.
`none` means no early error return (the request is forwarded). -/
def migration_setup_validate (conf : MigrationConf) (hdr : Headers) : Option SetupErr :=
  let prov := hGet hdr "X-Container-Migration-Provider"
  let msrc := hGet hdr "X-Container-Migration-Source"
  if pyFalsyO msrc && prov.isSome then
    some (.preconditionFailed "Migration source is missing")
  else if pyFalsyO prov && msrc.isSome then
    some (.preconditionFailed "Migration provider is missing")
  else if prov.isSome && msrc.isSome then
    match assocFind conf (prov.getD "") with
    | none => some (.badRequest "Invalid provider")
    | some e =>
      if e.driver_loaded = false then some (.badRequest "Invalid access driver")
      else
        match e.keys.find? (fun k => (hGet hdr ("X-Container-Migration-" ++ pyTitle k)).isNone) with
        | some k =>
          some (.badRequest ("Missing required header: X-Container-Migration-" ++ pyTitle k))
        | none =>
          match e.additional_params.find? (fun kv => pyStrip kv.2 = "") with
          | some kv => some (.badRequest ("Missing value for " ++ kv.1))
          | none => none
  else none

/-- DataMigrationMiddleware.__call__: the setup-validation block runs only for
PUT/POST on a path with account and container but a falsy object part. -/
def data_migration_setup_check (conf : MigrationConf) (req : Req) : Option SetupErr :=
  match split_path_3_4 req.segs with
  | none => none
  | some (_v, _a, _c, objOpt) =>
    if (objOpt.getD "") = "" ∧ (req.method = "PUT" ∨ req.method = "POST") then
      migration_setup_validate conf req.headers
    else none

/-- Exceptions the migration orchestrator distinguishes: DataMigrationError
(caught, answered with 404) versus any other exception (caught, answered
with 400). -/
inductive MigExn where
  | dataMigrationError (msg : String)
  | pyException (msg : String)
deriving DecidableEq, Repr

/-- The params dict built by remote_driver_resolver: container metadata values
for every declared key (default ''), then the registry's static parameters. -/
def buildParams (e : MigEntry) (md : List (String × String)) : List (String × String) :=
  let p1 := e.keys.foldl (fun acc k => assocSet acc k (lookupD md ("migration-" ++ k) "")) []
  e.additional_params.foldl (fun acc kv => assocSet acc kv.1 kv.2) p1

/-- DataMigrationMiddleware.remote_driver_resolver, lines 277-303: resolve the
provider named in container metadata against the registry and construct the
driver; a DataMigrationDriverError from the constructor is re-raised as
DataMigrationError, any other constructor exception propagates. -/
def remote_driver_resolver (container_md : List (String × String)) (conf : MigrationConf) :
    Except MigExn MigDriver :=
  let mprovider := pyLower (lookupD container_md "migration-provider" "")
  let data_source := pyLower (lookupD container_md "migration-source" "")
  match assocFind conf mprovider with
  | none => .error (.dataMigrationError "Migration provider is missing")
  | some e =>
    if e.driver_loaded then
      match e.the_class.construct data_source (buildParams e container_md) with
      | .ok d => .ok d
      | .error (.driverError m) => .error (.dataMigrationError m)
      | .error (.plainError m) => .error (.pyException m)
    else .error (.dataMigrationError "Failed to retrieve remote driver")

/-- DataMigrationMiddleware.GETorHEAD_miss, lines 245-275: resolve a driver,
migrate the object (the driver's migrate_object is the oracle `migrate`,
returning the local upload's status or a DataMigrationDriverError message),
then replay the original call when the upload status is OK, CREATED or
ACCEPTED, and raise DataMigrationError otherwise. -/
def GETorHEAD_miss (resolved : Except MigExn MigDriver)
    (migrate : MigDriver → Except String Nat) (replay : Resp) : Except MigExn Resp :=
  match resolved with
  | .error e => .error e
  | .ok drv =>
    match migrate drv with
    | .error m => .error (.dataMigrationError m)
    | .ok status =>
      if status = 200 ∨ status = 201 ∨ status = 202 then .ok replay
      else .error (.dataMigrationError ("Failed to create local object." ++ "Status " ++ toString status))

/-- DataMigrationMiddleware.__call__, lines 226-241: a DataMigrationError is
surfaced as swob HTTPNotFound with an X-Migration-Status header, any other
exception as HTTPBadRequest with the same diagnostic header. -/
def migration_miss_to_client (r : Except MigExn Resp) : Resp :=
  match r with
  | .ok resp => resp
  | .error (.dataMigrationError m) =>
    { status := 404, headers := [("X-Migration-Status", m)], body := "", contentLength := none }
  | .error (.pyException m) =>
    { status := 400, headers := [("X-Migration-Status", m)], body := "", contentLength := none }

/-! ## Server-side copy (src/swift/common/middleware/server_side_copy.py and
src/swift/common/copy_helper.py)

The downstream pipeline is abstracted by three oracles: `app` for plain
forwards, `fetch` for the source sub-request issued by
ServerSideCopyWebContext.get_source_resp, and `put` for the sink PUT issued
by ServerSideCopyWebContext.send_put_req.  The 'swift.copy_hook' entry of the
environ is the `hook` argument.  An `SSCOut` records the response delivered
to the client together with every sub-request issued on the way.
-/

/-- Python exceptions escaping the middleware uncaught: KeyError and
ValueError from handle_PUT's Content-Length access, plus raised swob
HTTPExceptions from the constraint-checking helpers. -/
inductive PyExn where
  | keyError (key : String)
  | valueError (val : String)
  | httpExc (r : Resp)
deriving DecidableEq, Repr

structure SSCOut where
  resp : Resp
  fetchReqs : List Req
  putReqs : List Req
  appReqs : List Req
deriving DecidableEq, Repr

/-- swob HTTPPreconditionFailed(body=msg) as built by the constraint helpers
and handle_COPY (the body abbreviates swob's HTML wrapping). -/
def precondResp (msg : String) : Resp :=
  { status := 412, headers := [], body := msg, contentLength := none }

/-- The HTTPBadRequest response of handle_PUT's zero-byte-body check,
lines 237-241 of server_side_copy.py. -/
def resp400ZeroBody : Resp :=
  { status := 400, headers := [("Content-Type", "text/plain")],
    body := "Copy requests require a zero byte body", contentLength := none }

/-- swob HTTPRequestEntityTooLarge(request=req) returned by
CopyHelper._get_source_object (body abbreviates swob's default). -/
def entityTooLargeResp : Resp :=
  { status := 413, headers := [], body := "Request Entity Too Large", contentLength := none }

/-- swift.common.constraints.check_account_format (collaborator outside
src/): an empty account or one containing '/' raises HTTPPreconditionFailed. -/
def check_account_format (a : String) : Except Resp String :=
  if a = "" then .error (precondResp "Account name cannot be empty")
  else if strContains a "/" then .error (precondResp "Account name cannot contain slashes")
  else .ok a

/-- swift.common.constraints.check_path_header (collaborator outside src/):
unquote the header value, ensure a leading '/', and split it into exactly
container and object (the object keeping any remaining slashes); a failed
split raises HTTPPreconditionFailed with the given message. -/
def check_path_header (raw msg : String) : Except Resp (String × String) :=
  let s := pyUnquote raw
  let s2 := if strStarts s "/" then s else "/" ++ s
  match splitCharMax '/' 2 s2.toList with
  | [_, c, o] =>
    if c ≠ [] ∧ o ≠ [] then .ok ((⟨c⟩ : String), (⟨o⟩ : String))
    else .error (precondResp msg)
  | _ => .error (precondResp msg)

/-- swift.common.constraints.check_copy_from_header. -/
def check_copy_from_header (hdr : Headers) : Except Resp (String × String) :=
  check_path_header (hGetD hdr "X-Copy-From" "")
    "X-Copy-From header must be of the form <container name>/<object name>"

/-- swift.common.constraints.check_destination_header. -/
def check_destination_header (hdr : Headers) : Except Resp (String × String) :=
  check_path_header (hGetD hdr "Destination" "")
    "Destination header must be of the form <container name>/<object name>"

/-- The source sub-request of CopyHelper._get_source_object, lines 102-109:
req.copy_get() (method GET, zero content length), the destination's storage
policy override popped, path set to the quoted source path, X-Newest
forced on. -/
def sourceRequest (req : Req) (source_path : String) : Req :=
  let h0 := hSet req.headers "Content-Length" "0"
  let h1 := hDel h0 "X-Backend-Storage-Policy-Index"
  let h2 := hSet h1 "X-Newest" "true"
  { req with method := "GET", segs := pathSegs (pyQuote source_path), headers := h2 }

/-- Lines 144-160 of copy_helper.py: the sink request starts as a clone of
the original request; its content length and etag come from the source
response, the copy-source headers are dropped, and the content type defaults
to the source's when the client supplied none.  (When this runs the source's
content length is known to be a value, so `getD 0` is never the escape
hatch.) -/
def sinkBase (req : Req) (s : Resp) : Req :=
  let h1 := hSet req.headers "Content-Length" (toString (s.contentLength.getD 0))
  let h2 := hSetOpt h1 "Etag" (hGet s.headers "Etag")
  let h3 := hDel h2 "X-Copy-From"
  let h4 := hDel h3 "X-Copy-From-Account"
  let h5 :=
    if pyTruthyO (hGet req.headers "content-type") then h4
    else hSetOpt h4 "Content-Type" (hGet s.headers "Content-Type")
  { req with headers := h5 }

/-- Lines 162-174 of copy_helper.py: the metadata-merge branch.  Fresh
metadata or post-as-copy: drop the client's new object sysmeta and copy the
source's; otherwise copy the source's sys and user metadata and re-apply the
client's on top. -/
def sinkMerged (req : Req) (s : Resp) : Req :=
  let sink := sinkBase req s
  let freshFlag := config_true_value (hGetD sink.headers "x-fresh-metadata" "false")
  if freshFlag ∨ req.envPostAsCopy then
    { sink with headers := headerCopyIf isSysMetaObj s.headers (removeItems sink.headers isSysMetaObj) }
  else
    { sink with headers := headerCopyIf metaCondObj req.headers (headerCopyIf metaCondObj s.headers sink.headers) }

/-- Lines 176-181 of copy_helper.py: propagate the static-large-object
marker for manifest copies and post-as-copy. -/
def sinkFinal (req : Req) (s : Resp) : Req :=
  let sink := sinkMerged req s
  let sloVal := (hGet s.headers "X-Static-Large-Object").getD ""
  if (hGet s.headers "X-Static-Large-Object").isSome ∧
      (assocFind req.queryParams "multipart-manifest" = some "get" ∨ req.envPostAsCopy) then
    { sink with headers := hSet sink.headers "X-Static-Large-Object" sloVal }
  else sink

/-- CopyHelper._create_response_headers, lines 87-100: provenance headers
from the source path and response, plus a reflection of the sink's final
sys/user metadata. -/
def create_response_headers (source_path : String) (s : Resp) (sink : Req) : Headers :=
  let parts := (splitCharMax '/' 3 source_path.toList).map (fun l => (⟨l⟩ : String))
  let acct := (parts.drop 2).headD ""
  let pathPart := (parts.drop 3).headD ""
  let base := [("X-Copied-From-Account", pyQuote acct), ("X-Copied-From", pyQuote pathPart)]
  let base :=
    match hGet s.headers "last-modified" with
    | some lm => base ++ [("X-Copied-From-Last-Modified", lm)]
    | none => base
  sink.headers.foldl
    (fun acc p => if isSysOrUserMetaObj p.1 ∨ pyLower p.1 = "x-delete-at"
      then assocSet acc p.1 p.2 else acc) base

/-- ServerSideCopyWebContext._adjust_put_response, lines 51-61: on success
append the provenance headers; if the client's original method was POST,
translate 201 Created into 202 Accepted. -/
def adjust_put_response (putResp : Resp) (additional : Headers) (origMethod : Option String) : Resp :=
  let r1 :=
    if is_success putResp.status then { putResp with headers := putResp.headers ++ additional }
    else putResp
  if origMethod = some "POST" ∧ r1.status = 201 then { r1 with status := 202 } else r1

/-- CopyHelper.copy, lines 135-187, with _get_source_object inlined as its
first step: fetch the source (giving the copy hook its chance), refuse an
indeterminate or oversized length with 413, propagate a non-2xx source
response unchanged, otherwise build the sink PUT and forward it. -/
def CopyHelper.copy (maxFileSize : Nat) (fetch put : Req → Resp)
    (hook : Req → Resp → Req → Resp) (source_path : String) (req : Req) : SSCOut :=
  let sreq := sourceRequest req source_path
  let sresp := hook sreq (fetch sreq) req
  let checked :=
    match sresp.contentLength with
    | none => entityTooLargeResp
    | some n => if maxFileSize < n then entityTooLargeResp else sresp
  if 300 ≤ checked.status then
    { resp := checked, fetchReqs := [sreq], putReqs := [], appReqs := [] }
  else
    let sink := sinkFinal req checked
    { resp := adjust_put_response (put sink) (create_response_headers source_path checked sink)
        req.envOrigMethod,
      fetchReqs := [sreq], putReqs := [sink], appReqs := [] }

/-- ServerSideCopyMiddleware.handle_PUT, lines 235-258: the unguarded
int(req.headers['Content-Length']) access (KeyError when absent, ValueError
when unparseable), the zero-byte-body check, source-path formation and the
delegation to CopyHelper.copy. -/
def handle_PUT (maxFileSize : Nat) (fetch put : Req → Resp)
    (hook : Req → Resp → Req → Resp) (req : Req) : Except PyExn SSCOut :=
  match hGet req.headers "Content-Length" with
  | none => .error (.keyError "Content-Length")
  | some clStr =>
    match pyInt? clStr with
    | none => .error (.valueError clStr)
    | some cl =>
      if cl ≠ 0 then
        .ok { resp := resp400ZeroBody, fetchReqs := [], putReqs := [], appReqs := [] }
      else
        match req.segs with
        | ver :: acct :: _ =>
          let srcAcctHdr := hGet req.headers "X-Copy-From-Account"
          match (if pyTruthyO srcAcctHdr then check_account_format (srcAcctHdr.getD "")
                 else .ok acct) with
          | .error r => .error (.httpExc r)
          | .ok srcAcct =>
            match check_copy_from_header req.headers with
            | .error r => .error (.httpExc r)
            | .ok (srcCont, srcObj) =>
              .ok (CopyHelper.copy maxFileSize fetch put hook
                ("/" ++ ver ++ "/" ++ srcAcct ++ "/" ++ srcCont ++ "/" ++ srcObj) req)
        | _ => .error (.valueError "Invalid path")

/-- ServerSideCopyMiddleware.handle_COPY, lines 206-232: require a
Destination header, translate a Destination-Account, then rewrite the request
in place as a PUT on the destination with Content-Length forced to zero and
X-Copy-From set to the quoted original path, and delegate to handle_PUT. -/
def handle_COPY (maxFileSize : Nat) (fetch put : Req → Resp)
    (hook : Req → Resp → Req → Resp) (acct cont obj : String) (req : Req) :
    Except PyExn SSCOut :=
  if ¬ pyTruthyO (hGet req.headers "Destination") then
    .ok { resp := precondResp "Destination header required",
          fetchReqs := [], putReqs := [], appReqs := [] }
  else
    let daHdr := hGet req.headers "Destination-Account"
    match (if daHdr.isSome then (check_account_format (daHdr.getD "")).map (fun da => (da, true))
           else .ok (acct, false)) with
    | .error r => .error (.httpExc r)
    | .ok (destAcct, usedDA) =>
      let req1 :=
        if usedDA then
          { req with headers := hDel (hSet req.headers "X-Copy-From-Account" acct) "Destination-Account" }
        else req
      match check_destination_header req1.headers with
      | .error r => .error (.httpExc r)
      | .ok (destCont, destObj) =>
        let source := "/" ++ cont ++ "/" ++ obj
        let h1 := hSet req1.headers "Content-Length" "0"
        let h2 := hSet h1 "X-Copy-From" (pyQuote source)
        let h3 := hDel h2 "Destination"
        handle_PUT maxFileSize fetch put hook
          { req1 with method := "PUT", segs := ["v1", destAcct, destCont, destObj], headers := h3 }

/-- ServerSideCopyMiddleware.handle_object_post_as_copy, lines 196-204: a
POST is morphed into a PUT copying the object onto itself, with the
post-as-copy environ flag set. -/
def handle_object_post_as_copy (maxFileSize : Nat) (fetch put : Req → Resp)
    (hook : Req → Resp → Req → Resp) (acct cont obj : String) (req : Req) :
    Except PyExn SSCOut :=
  let h1 := hSet req.headers "Content-Length" "0"
  let h2 := hSet h1 "X-Copy-From" (pyQuote ("/" ++ cont ++ "/" ++ obj))
  let req1 : Req :=
    { req with method := "PUT", segs := ["v1", acct, cont, obj], headers := h2, envPostAsCopy := true }
  handle_PUT maxFileSize fetch put hook req1

/-- One header cell of ServerSideCopyWebContext.handle_OPTIONS_request,
lines 66-74: append ', COPY' to Allow and Access-Control-Allow-Methods when
'COPY' is not already a substring of the value. -/
def optionsAugmentPair (p : String × String) : String × String :=
  if pyLower p.1 = "access-control-allow-methods" ∧ strContains p.2 "COPY" = false then
    ("Access-Control-Allow-Methods", p.2 ++ ", COPY")
  else if pyLower p.1 = "allow" ∧ strContains p.2 "COPY" = false then
    ("Allow", p.2 ++ ", COPY")
  else p

/-- ServerSideCopyWebContext.handle_OPTIONS_request, lines 63-78: on a
successful downstream response, rewrite the header list cell-wise. -/
def optionsAugment (status : Nat) (hs : Headers) : Headers :=
  if is_success status then hs.map optionsAugmentPair else hs

/-- ServerSideCopyMiddleware.__call__, lines 166-194: route object-path
requests to the copy handlers; anything else passes through. -/
def ssc_call (object_post_as_copy : Bool) (maxFileSize : Nat)
    (app fetch put : Req → Resp) (hook : Req → Resp → Req → Resp) (req0 : Req) :
    Except PyExn SSCOut :=
  match split_path_4_4 req0.segs with
  | none => .ok { resp := app req0, fetchReqs := [], putReqs := [], appReqs := [req0] }
  | some (_v, a, c, o) =>
    let req := { req0 with envOrigMethod := some req0.method }
    if req.method = "PUT" ∧ pyTruthyO (hGet req.headers "X-Copy-From") then
      handle_PUT maxFileSize fetch put hook req
    else if req.method = "COPY" then
      handle_COPY maxFileSize fetch put hook a c o req
    else if req.method = "POST" ∧ object_post_as_copy then
      handle_object_post_as_copy maxFileSize fetch put hook a c o req
    else if req.method = "OPTIONS" then
      let r := app req
      .ok { resp := { r with headers := optionsAugment r.status r.headers },
            fetchReqs := [], putReqs := [], appReqs := [req] }
    else .ok { resp := app req, fetchReqs := [], putReqs := [], appReqs := [req] }

/-! ## Concrete fixtures for closed checks -/

def okSourceResp : Resp :=
  { status := 200
    headers := [("Content-Type", "text/plain"), ("Etag", "e1"),
                ("X-Object-Meta-A", "1"), ("X-Object-Sysmeta-S", "9")]
    body := "abc"
    contentLength := some 3 }

def fetchOK : Req → Resp := fun _ => okSourceResp

def resp500Det : Resp := { status := 500, headers := [], body := "err!", contentLength := some 4 }

def fetch500 : Req → Resp := fun _ => resp500Det

def resp500NoLen : Resp := { status := 500, headers := [], body := "boom", contentLength := none }

def fetchNoLen : Req → Resp := fun _ => resp500NoLen

def putCreated : Req → Resp := fun _ => { status := 201, headers := [], body := "", contentLength := some 0 }

def appNotFound : Req → Resp := fun _ => { status := 404, headers := [], body := "", contentLength := none }

def hookId : Req → Resp → Req → Resp := fun _ r _ => r

def reqPutCopyNormal : Req :=
  { method := "PUT"
    segs := ["v1", "a", "c", "o"]
    headers := [("Content-Length", "0"), ("X-Copy-From", "/c2/o2"),
                ("X-Object-Meta-A", "2"), ("X-Object-Meta-B", "3")]
    queryParams := []
    envOrigMethod := some "PUT"
    envPostAsCopy := false }

def reqPutCopyFresh : Req :=
  { method := "PUT"
    segs := ["v1", "a", "c", "o"]
    headers := [("Content-Length", "0"), ("X-Fresh-Metadata", "true"),
                ("X-Object-Meta-A", "2"), ("X-Object-Meta-B", "3"), ("X-Object-Sysmeta-C", "7")]
    queryParams := []
    envOrigMethod := some "PUT"
    envPostAsCopy := false }

def reqCopyWithBody : Req :=
  { method := "COPY"
    segs := ["v1", "a", "c", "o"]
    headers := [("Destination", "/d/do"), ("Content-Length", "5")]
    queryParams := []
    envOrigMethod := none
    envPostAsCopy := false }

def reqPutCopyBody : Req :=
  { method := "PUT"
    segs := ["v1", "a", "c", "o"]
    headers := [("X-Copy-From", "/c2/o2"), ("Content-Length", "5")]
    queryParams := []
    envOrigMethod := none
    envPostAsCopy := false }

/-- Case-insensitive key uniqueness of a header list (swob headers are backed
by a dict, so real header objects always satisfy this). -/
def ciKeysNodup (hs : Headers) : Prop :=
  hs.Pairwise (fun p q => pyLower p.1 ≠ pyLower q.1)

instance (hs : Headers) : Decidable (ciKeysNodup hs) := by
  unfold ciKeysNodup; infer_instance

/-- Decidable equality for Except values, so concrete runs of the embedded
operations can be checked by `decide`. -/
instance {e a : Type} [DecidableEq e] [DecidableEq a] : DecidableEq (Except e a)
  | .error u, .error v =>
    match decEq u v with
    | isTrue h => isTrue (h ▸ rfl)
    | isFalse h => isFalse (fun he => h (by injection he))
  | .error _, .ok _ => isFalse (fun he => Except.noConfusion he)
  | .ok _, .error _ => isFalse (fun he => Except.noConfusion he)
  | .ok u, .ok v =>
    match decEq u v with
    | isTrue h => isTrue (h ▸ rfl)
    | isFalse h => isFalse (fun he => h (by injection he))

def replayRespExample : Resp := { status := 200, headers := [], body := "data", contentLength := some 4 }

def confSwiftExample : MigrationConf :=
  [("swift", { keys := ["token-url", "user", "key"], the_class := SwiftAccessDriverClass,
               driver_loaded := true, additional_params := [] })]

def mdMissingKeys : List (String × String) :=
  [("migration-provider", "swift"), ("migration-source", "Src")]

def confFsExample : MigrationConf :=
  [("fsystem", { keys := [], the_class := FileSystemAccessDriverClass,
                 driver_loaded := true,
                 additional_params := [("driver_fsystem_parent_path", "/tmp/")] })]

def reqSetupEmptySource : Req :=
  { method := "PUT"
    segs := ["v1", "AUTH_test", "cont"]
    headers := [("X-Container-Migration-Provider", "bad"), ("X-Container-Migration-Source", "")]
    queryParams := []
    envOrigMethod := none
    envPostAsCopy := false }

def reqSetupBadProvider : Req :=
  { method := "PUT"
    segs := ["v1", "AUTH_test", "cont"]
    headers := [("X-Container-Migration-Provider", "fiction"),
                ("X-Container-Migration-Source", "src")]
    queryParams := []
    envOrigMethod := none
    envPostAsCopy := false }

def reqSetupNoActive : Req :=
  { method := "PUT"
    segs := ["v1", "AUTH_test", "cont"]
    headers := [("X-Container-Migration-Provider", "fsystem"),
                ("X-Container-Migration-Source", "a/b")]
    queryParams := []
    envOrigMethod := none
    envPostAsCopy := false }

def reqPutCopyNoLen : Req :=
  { method := "PUT"
    segs := ["v1", "a", "c", "o"]
    headers := [("X-Copy-From", "/c2/o2")]
    queryParams := []
    envOrigMethod := none
    envPostAsCopy := false }

def reqPutCopyBadLen : Req :=
  { method := "PUT"
    segs := ["v1", "a", "c", "o"]
    headers := [("X-Copy-From", "/c2/o2"), ("Content-Length", "abc")]
    queryParams := []
    envOrigMethod := none
    envPostAsCopy := false }

/-! ## Lemma layer -/

theorem optOr_none_left (b : Option String) : optOr none b = b := rfl

theorem optOr_none_right (a : Option String) : optOr a none = a := by
  cases a <;> rfl

theorem optOr_self_right (a b : Option String) : optOr a (optOr b a) = optOr a b := by
  cases a <;> cases b <;> rfl

theorem hGet_hSet_eq (hs : Headers) (k v k' : String) (h : pyLower k = pyLower k') :
    hGet (hSet hs k v) k' = some v := by
  induction hs with
  | nil => simp [hSet, hGet, h]
  | cons p rest ih =>
    by_cases hp : pyLower p.1 = pyLower k
    · simp [hSet, hGet, hp, h, hp.trans h]
    · have hpk : ¬ pyLower p.1 = pyLower k' := fun he => hp (he.trans h.symm)
      simp [hSet, hGet, hp, hpk, ih]

theorem hGet_hSet_ne (hs : Headers) (k v k' : String) (h : pyLower k ≠ pyLower k') :
    hGet (hSet hs k v) k' = hGet hs k' := by
  induction hs with
  | nil => simp [hSet, hGet, h]
  | cons p rest ih =>
    by_cases hp : pyLower p.1 = pyLower k
    · have hpk : ¬ pyLower p.1 = pyLower k' := fun he => h (hp.symm.trans he)
      simp [hSet, hGet, hp, hpk, h]
    · simp only [hSet, hGet, if_neg hp]
      by_cases hq : pyLower p.1 = pyLower k'
      · simp [hGet, hq]
      · simp [hGet, hq, ih]

theorem hGet_hDel_ne (hs : Headers) (k k' : String) (h : pyLower k ≠ pyLower k') :
    hGet (hDel hs k) k' = hGet hs k' := by
  induction hs with
  | nil => rfl
  | cons p rest ih =>
    by_cases hp : pyLower p.1 = pyLower k
    · have hpk : ¬ pyLower p.1 = pyLower k' := fun he => h (hp.symm.trans he)
      simp [hDel, hGet, hp, hpk, ih, h]
    · by_cases hq : pyLower p.1 = pyLower k'
      · simp [hDel, hGet, hp, hq, Ne.symm h]
      · simp [hDel, hGet, hp, hq, ih]

theorem hGet_hSetOpt_ne (hs : Headers) (k : String) (v : Option String) (k' : String)
    (h : pyLower k ≠ pyLower k') : hGet (hSetOpt hs k v) k' = hGet hs k' := by
  cases v with
  | some x => exact hGet_hSet_ne hs k x k' h
  | none => exact hGet_hDel_ne hs k k' h

theorem hGet_eq_none (hs : Headers) (k : String)
    (h : ∀ p ∈ hs, pyLower p.1 ≠ pyLower k) : hGet hs k = none := by
  induction hs with
  | nil => rfl
  | cons p rest ih =>
    simp only [hGet, if_neg (h p (List.mem_cons_self p rest))]
    exact ih (fun q hq => h q (List.mem_cons_of_mem p hq))

theorem hGet_headerCopyIf (cond : String → Bool)
    (hci : ∀ a b, pyLower a = pyLower b → cond a = cond b)
    (src : Headers) (k : String) (hnd : ciKeysNodup src) :
    ∀ dst, hGet (headerCopyIf cond src dst) k =
      if cond k then optOr (hGet src k) (hGet dst k) else hGet dst k := by
  induction src with
  | nil =>
    intro dst
    simp [headerCopyIf, hGet, optOr_none_left]
  | cons p rest ih =>
    intro dst
    obtain ⟨hp, hndr⟩ := List.pairwise_cons.mp hnd
    simp only [headerCopyIf]
    rw [ih hndr]
    by_cases hpk : pyLower p.1 = pyLower k
    · have hcpk : cond p.1 = cond k := hci p.1 k hpk
      have hrest : hGet rest k = none :=
        hGet_eq_none rest k (fun q hq he => absurd (hpk.trans he.symm) (hp q hq))
      by_cases hck : cond k = true
      · rw [if_pos hck, if_pos hck, hrest, optOr_none_left]
        have : cond p.1 = true := hcpk.trans hck
        rw [if_pos this, hGet_hSet_eq dst p.1 p.2 k hpk]
        simp [hGet, hpk, optOr]
      · rw [if_neg hck, if_neg hck]
        have : ¬ cond p.1 = true := fun hc => hck (hcpk.symm.trans hc)
        rw [if_neg this]
    · by_cases hck : cond k = true
      · rw [if_pos hck, if_pos hck]
        have hgp : hGet (p :: rest) k = hGet rest k := by simp [hGet, hpk]
        rw [hgp]
        by_cases hcp : cond p.1 = true
        · rw [if_pos hcp, hGet_hSet_ne dst p.1 p.2 k hpk]
        · rw [if_neg hcp]
      · rw [if_neg hck, if_neg hck]
        by_cases hcp : cond p.1 = true
        · rw [if_pos hcp, hGet_hSet_ne dst p.1 p.2 k hpk]
        · rw [if_neg hcp]

theorem hGet_removeItems (cond : String → Bool)
    (hci : ∀ a b, pyLower a = pyLower b → cond a = cond b)
    (hs : Headers) (k : String) :
    hGet (removeItems hs cond) k = if cond k then none else hGet hs k := by
  induction hs with
  | nil => simp [removeItems, hGet]
  | cons p rest ih =>
    by_cases hpk : pyLower p.1 = pyLower k
    · have hcpk : cond p.1 = cond k := hci p.1 k hpk
      by_cases hck : cond k = true
      · simp only [removeItems, if_pos (hcpk.trans hck), ih, if_pos hck]
      · have : ¬ cond p.1 = true := fun hc => hck (hcpk.symm.trans hc)
        simp only [removeItems, if_neg this]
        simp [hGet, hpk, if_neg hck]
    · by_cases hcp : cond p.1 = true
      · simp only [removeItems, if_pos hcp, ih]
        by_cases hck : cond k = true
        · rw [if_pos hck, if_pos hck]
        · rw [if_neg hck, if_neg hck]
          simp [hGet, hpk]
      · simp only [removeItems, if_neg hcp]
        by_cases hck : cond k = true
        · simp only [hGet, if_neg hpk, ih, if_pos hck]
        · simp only [hGet, if_neg hpk, ih, if_neg hck]

theorem isUserMetaObj_ci {a b : String} (h : pyLower a = pyLower b) :
    isUserMetaObj a = isUserMetaObj b := by
  unfold isUserMetaObj; rw [h]

theorem isSysMetaObj_ci {a b : String} (h : pyLower a = pyLower b) :
    isSysMetaObj a = isSysMetaObj b := by
  unfold isSysMetaObj; rw [h]

theorem isSysOrUserMetaObj_ci {a b : String} (h : pyLower a = pyLower b) :
    isSysOrUserMetaObj a = isSysOrUserMetaObj b := by
  unfold isSysOrUserMetaObj; rw [isUserMetaObj_ci h, isSysMetaObj_ci h]

theorem metaCondObj_ci {a b : String} (h : pyLower a = pyLower b) :
    metaCondObj a = metaCondObj b := by
  unfold metaCondObj; rw [isSysOrUserMetaObj_ci h, h]

/-- A key on which a case-insensitively invariant predicate is false is never
case-equal to a key on which it is true. -/
theorem pyLower_ne_of_pred (P : String → Bool)
    (hP : ∀ a b, pyLower a = pyLower b → P a = P b) {c k : String}
    (hc : P c = false) (hk : P k = true) : pyLower c ≠ pyLower k := by
  intro he
  rw [hP c k he, hk] at hc
  exact Bool.true_eq_false.mp hc

theorem leadMatch_eq_take (p : List Char) : ∀ l, leadMatch p l = true ↔ l.take p.length = p := by
  induction p with
  | nil => intro l; simp [leadMatch]
  | cons q ps ih =>
    intro l
    cases l with
    | nil => simp [leadMatch]
    | cons c cs =>
      simp only [leadMatch, List.length_cons, List.take_succ_cons, List.cons.injEq,
        Bool.and_eq_true, decide_eq_true_eq]
      constructor
      · rintro ⟨h1, h2⟩; exact ⟨h1.symm, (ih cs).mp h2⟩
      · rintro ⟨h1, h2⟩; exact ⟨h1.symm, (ih cs).mpr h2⟩

/-- An object user-metadata key is never an object system-metadata key: the
two reserved leading markers differ. -/
theorem isUserMetaObj_not_sys {k : String} (h : isUserMetaObj k = true) :
    isSysMetaObj k = false := by
  unfold isUserMetaObj strStarts at h
  unfold isSysMetaObj strStarts
  by_contra hb
  have hsys : leadMatch "x-object-sysmeta-".toList (pyLower k).toList = true := by
    revert hb; cases leadMatch "x-object-sysmeta-".toList (pyLower k).toList <;> simp
  have t14 := (leadMatch_eq_take _ _).mp h
  have t17 := (leadMatch_eq_take _ _).mp hsys
  have : (pyLower k).toList.take ("x-object-meta-".toList.length) =
      ((pyLower k).toList.take ("x-object-sysmeta-".toList.length)).take ("x-object-meta-".toList.length) := by
    rw [List.take_take]
    norm_num
  rw [t17, t14] at this
  revert this
  decide

/-- sinkBase only touches Content-Length, Etag, the copy-source headers and
Content-Type; any other key's lookup is unchanged. -/
theorem hGet_sinkBase_untouched (req : Req) (s : Resp) (k : String)
    (hcl : pyLower "Content-Length" ≠ pyLower k)
    (het : pyLower "Etag" ≠ pyLower k)
    (hxcf : pyLower "X-Copy-From" ≠ pyLower k)
    (hxcfa : pyLower "X-Copy-From-Account" ≠ pyLower k)
    (hct : pyLower "Content-Type" ≠ pyLower k) :
    hGet (sinkBase req s).headers k = hGet req.headers k := by
  unfold sinkBase
  simp only
  split
  · rw [hGet_hDel_ne _ _ _ hxcfa, hGet_hDel_ne _ _ _ hxcf,
      hGet_hSetOpt_ne _ _ _ _ het, hGet_hSet_ne _ _ _ _ hcl]
  · rw [hGet_hSetOpt_ne _ _ _ _ hct, hGet_hDel_ne _ _ _ hxcfa, hGet_hDel_ne _ _ _ hxcf,
      hGet_hSetOpt_ne _ _ _ _ het, hGet_hSet_ne _ _ _ _ hcl]

/-- Specialisation: metadata keys are untouched by sinkBase. -/
theorem hGet_sinkBase_meta (req : Req) (s : Resp) (k : String)
    (hk : metaCondObj k = true) :
    hGet (sinkBase req s).headers k = hGet req.headers k := by
  refine hGet_sinkBase_untouched req s k ?_ ?_ ?_ ?_ ?_ <;>
    exact pyLower_ne_of_pred metaCondObj (fun a b h => metaCondObj_ci h) (by decide) hk

/-- The x-fresh-metadata flag is read from the sink after the base edits, but
those edits never touch it. -/
theorem hGet_sinkBase_xfresh (req : Req) (s : Resp) :
    hGet (sinkBase req s).headers "x-fresh-metadata" = hGet req.headers "x-fresh-metadata" := by
  refine hGet_sinkBase_untouched req s _ ?_ ?_ ?_ ?_ ?_ <;> decide

/-- Normal-mode merge law: for a metadata key, the sink's final value is the
client's when supplied, otherwise the source's. -/
theorem hGet_sinkMerged_normal (req : Req) (s : Resp) (k : String)
    (hnd1 : ciKeysNodup req.headers) (hnd2 : ciKeysNodup s.headers)
    (hk : metaCondObj k = true)
    (hfresh : config_true_value (hGetD req.headers "x-fresh-metadata" "false") = false)
    (hpac : req.envPostAsCopy = false) :
    hGet (sinkMerged req s).headers k = optOr (hGet req.headers k) (hGet s.headers k) := by
  unfold sinkMerged
  simp only [hGetD, hGet_sinkBase_xfresh, hpac]
  rw [show config_true_value ((hGet req.headers "x-fresh-metadata").getD "false") = false from hfresh]
  simp only [Bool.false_eq_true, or_self, if_false]
  rw [hGet_headerCopyIf metaCondObj (fun a b h => metaCondObj_ci h) req.headers k hnd1,
    hGet_headerCopyIf metaCondObj (fun a b h => metaCondObj_ci h) s.headers k hnd2,
    if_pos hk, if_pos hk, hGet_sinkBase_meta req s k hk, optOr_self_right]

/-- Fresh-metadata / post-as-copy merge law, sysmeta side: the sink's system
metadata is exactly the source's. -/
theorem hGet_sinkMerged_fresh_sys (req : Req) (s : Resp) (k : String)
    (hnd2 : ciKeysNodup s.headers)
    (hbranch : config_true_value (hGetD req.headers "x-fresh-metadata" "false") = true ∨
      req.envPostAsCopy = true)
    (hk : isSysMetaObj k = true) :
    hGet (sinkMerged req s).headers k = hGet s.headers k := by
  unfold sinkMerged
  simp only [hGetD, hGet_sinkBase_xfresh]
  have hcond : (config_true_value ((hGet req.headers "x-fresh-metadata").getD "false") ∨
      req.envPostAsCopy) := by
    rcases hbranch with h | h
    · exact Or.inl (by rw [hGetD] at h; exact h)
    · exact Or.inr h
  rw [if_pos hcond]
  rw [hGet_headerCopyIf isSysMetaObj (fun a b h => isSysMetaObj_ci h) s.headers k hnd2,
    if_pos hk, hGet_removeItems isSysMetaObj (fun a b h => isSysMetaObj_ci h) _ k,
    if_pos hk, optOr_none_right]

/-- Fresh-metadata / post-as-copy merge law, user-metadata side: the client's
user metadata is retained unchanged and the source's is not copied. -/
theorem hGet_sinkMerged_fresh_user (req : Req) (s : Resp) (k : String)
    (hnd2 : ciKeysNodup s.headers)
    (hbranch : config_true_value (hGetD req.headers "x-fresh-metadata" "false") = true ∨
      req.envPostAsCopy = true)
    (hk : isUserMetaObj k = true) :
    hGet (sinkMerged req s).headers k = hGet req.headers k := by
  unfold sinkMerged
  simp only [hGetD, hGet_sinkBase_xfresh]
  have hcond : (config_true_value ((hGet req.headers "x-fresh-metadata").getD "false") ∨
      req.envPostAsCopy) := by
    rcases hbranch with h | h
    · exact Or.inl (by rw [hGetD] at h; exact h)
    · exact Or.inr h
  rw [if_pos hcond]
  have hks : isSysMetaObj k = false := isUserMetaObj_not_sys hk
  rw [hGet_headerCopyIf isSysMetaObj (fun a b h => isSysMetaObj_ci h) s.headers k hnd2]
  rw [if_neg (by rw [hks]; exact Bool.false_ne_true)]
  rw [hGet_removeItems isSysMetaObj (fun a b h => isSysMetaObj_ci h) _ k]
  rw [if_neg (by rw [hks]; exact Bool.false_ne_true)]
  exact hGet_sinkBase_meta req s k (by unfold metaCondObj isSysOrUserMetaObj; rw [hk]; rfl)

/-- The SLO-marker step never touches metadata keys. -/
theorem hGet_sinkFinal_meta (req : Req) (s : Resp) (k : String)
    (hk : metaCondObj k = true) :
    hGet (sinkFinal req s).headers k = hGet (sinkMerged req s).headers k := by
  unfold sinkFinal
  simp only
  split
  · exact hGet_hSet_ne _ _ _ _
      (pyLower_ne_of_pred metaCondObj (fun a b h => metaCondObj_ci h) (by decide) hk)
  · rfl

/-- Every path through CopyHelper.copy issues exactly one source fetch. -/
theorem copy_fetchReqs (maxFS : Nat) (fetch put : Req → Resp)
    (hook : Req → Resp → Req → Resp) (sp : String) (req : Req) :
    (CopyHelper.copy maxFS fetch put hook sp req).fetchReqs = [sourceRequest req sp] := by
  unfold CopyHelper.copy
  simp only
  split <;> rfl

/-- On a within-limit 2xx source response the sink PUT is exactly the final
sink request. -/
theorem copy_success_putReqs (maxFS : Nat) (fetch put : Req → Resp)
    (hook : Req → Resp → Req → Resp) (sp : String) (req : Req) (s : Resp) (n : Nat)
    (hs : hook (sourceRequest req sp) (fetch (sourceRequest req sp)) req = s)
    (hcl : s.contentLength = some n) (hmax : n ≤ maxFS) (hst : s.status < 300) :
    (CopyHelper.copy maxFS fetch put hook sp req).putReqs = [sinkFinal req s] := by
  unfold CopyHelper.copy
  simp only [hs, hcl]
  rw [if_neg (Nat.not_lt.mpr hmax), if_neg (Nat.not_le.mpr hst)]

/-- C7: a source response with indeterminate or over-limit content length is
answered with 413 and no sink PUT is issued. -/
theorem C7_theorem (maxFS : Nat) (fetch put : Req → Resp)
    (hook : Req → Resp → Req → Resp) (sp : String) (req : Req) (s : Resp)
    (hs : hook (sourceRequest req sp) (fetch (sourceRequest req sp)) req = s)
    (hbad : s.contentLength = none ∨ ∃ n, s.contentLength = some n ∧ maxFS < n) :
    (CopyHelper.copy maxFS fetch put hook sp req).resp = entityTooLargeResp ∧
    (CopyHelper.copy maxFS fetch put hook sp req).resp.status = 413 ∧
    (CopyHelper.copy maxFS fetch put hook sp req).putReqs = [] := by
  unfold CopyHelper.copy
  simp only [hs]
  rcases hbad with h | ⟨n, hn, hlt⟩
  · simp only [h]
    exact ⟨rfl, rfl, rfl⟩
  · simp only [hn]
    rw [if_pos hlt]
    exact ⟨rfl, rfl, rfl⟩

/-- C6 (amended): a non-2xx source response of determinate, within-limit
length is returned to the client unchanged and no sink PUT is issued. -/
theorem C6_theorem (maxFS : Nat) (fetch put : Req → Resp)
    (hook : Req → Resp → Req → Resp) (sp : String) (req : Req) (s : Resp) (n : Nat)
    (hs : hook (sourceRequest req sp) (fetch (sourceRequest req sp)) req = s)
    (hcl : s.contentLength = some n) (hmax : n ≤ maxFS) (hst : 300 ≤ s.status) :
    CopyHelper.copy maxFS fetch put hook sp req =
      { resp := s, fetchReqs := [sourceRequest req sp], putReqs := [], appReqs := [] } := by
  unfold CopyHelper.copy
  simp only [hs, hcl]
  rw [if_neg (Nat.not_lt.mpr hmax), if_pos hst]

theorem metaCondObj_of_user {k : String} (h : isUserMetaObj k = true) : metaCondObj k = true := by
  unfold metaCondObj isSysOrUserMetaObj
  rw [h]
  rfl

theorem metaCondObj_of_sys {k : String} (h : isSysMetaObj k = true) : metaCondObj k = true := by
  unfold metaCondObj isSysOrUserMetaObj
  rw [h]
  simp

/-- C5 (amended): exactly one merge branch applies.  In normal mode a
metadata key's sink value is the client's newly supplied value when present,
else the source's (client wins on conflicts).  In fresh-metadata or
post-as-copy mode the sink's system metadata is exactly the source's (the
client's new sysmeta is discarded), while the client's user metadata is kept
and the source's user metadata is not copied. -/
theorem C5_theorem (maxFS : Nat) (fetch put : Req → Resp)
    (hook : Req → Resp → Req → Resp) (sp : String) (req : Req) (s : Resp) (n : Nat) (k : String)
    (hs : hook (sourceRequest req sp) (fetch (sourceRequest req sp)) req = s)
    (hcl : s.contentLength = some n) (hmax : n ≤ maxFS) (hst : s.status < 300)
    (hnd1 : ciKeysNodup req.headers) (hnd2 : ciKeysNodup s.headers) :
    ((config_true_value (hGetD req.headers "x-fresh-metadata" "false") = false ∧
        req.envPostAsCopy = false) →
      ∀ sink ∈ (CopyHelper.copy maxFS fetch put hook sp req).putReqs,
        metaCondObj k = true →
          hGet sink.headers k = optOr (hGet req.headers k) (hGet s.headers k)) ∧
    ((config_true_value (hGetD req.headers "x-fresh-metadata" "false") = true ∨
        req.envPostAsCopy = true) →
      ∀ sink ∈ (CopyHelper.copy maxFS fetch put hook sp req).putReqs,
        (isSysMetaObj k = true → hGet sink.headers k = hGet s.headers k) ∧
        (isUserMetaObj k = true → hGet sink.headers k = hGet req.headers k)) := by
  rw [copy_success_putReqs maxFS fetch put hook sp req s n hs hcl hmax hst]
  constructor
  · rintro ⟨hf, hpac⟩ sink hsink hk
    rw [List.mem_singleton.mp hsink]
    rw [hGet_sinkFinal_meta req s k hk]
    exact hGet_sinkMerged_normal req s k hnd1 hnd2 hk hf hpac
  · intro hbranch sink hsink
    rw [List.mem_singleton.mp hsink]
    constructor
    · intro hk
      rw [hGet_sinkFinal_meta req s k (metaCondObj_of_sys hk)]
      exact hGet_sinkMerged_fresh_sys req s k hnd2 hbranch hk
    · intro hk
      rw [hGet_sinkFinal_meta req s k (metaCondObj_of_user hk)]
      exact hGet_sinkMerged_fresh_user req s k hnd2 hbranch hk

theorem containsSeq_append_right (pat s2 : List Char) (h : containsSeq pat s2 = true) :
    ∀ s1, containsSeq pat (s1 ++ s2) = true := by
  intro s1
  induction s1 with
  | nil => simpa using h
  | cons c cs ih =>
    simp only [List.cons_append, containsSeq, Bool.or_eq_true]
    exact Or.inr ih

theorem strData_append (a b : String) : (a ++ b).toList = a.toList ++ b.toList := by
  cases a
  cases b
  rfl

theorem strContains_append_copy (v : String) : strContains (v ++ ", COPY") "COPY" = true := by
  unfold strContains
  rw [strData_append]
  exact containsSeq_append_right _ _ (by decide) _

theorem optionsAugmentPair_idem (p : String × String) :
    optionsAugmentPair (optionsAugmentPair p) = optionsAugmentPair p := by
  unfold optionsAugmentPair
  by_cases h1 : pyLower p.1 = "access-control-allow-methods" ∧ strContains p.2 "COPY" = false
  · rw [if_pos h1]
    have hc : strContains (p.2 ++ ", COPY") "COPY" = true := strContains_append_copy p.2
    rw [if_neg (by simp [hc])]
    rw [if_neg (by simp [hc, show pyLower "Access-Control-Allow-Methods" = "access-control-allow-methods" from by decide])]
  · rw [if_neg h1]
    by_cases h2 : pyLower p.1 = "allow" ∧ strContains p.2 "COPY" = false
    · rw [if_pos h2]
      have hc : strContains (p.2 ++ ", COPY") "COPY" = true := strContains_append_copy p.2
      rw [if_neg (by simp [hc])]
      rw [if_neg (by simp [hc])]
    · rw [if_neg h2, if_neg h1, if_neg h2]

/-- C9: the OPTIONS augmentation appends ', COPY' only to Allow and
Access-Control-Allow-Methods values not already containing 'COPY', leaves
every other header cell unchanged, and is idempotent. -/
theorem C9_theorem (status : Nat) (hs : Headers) :
    optionsAugment status (optionsAugment status hs) = optionsAugment status hs ∧
    (∀ (i : Nat) (p : String × String), hs[i]? = some p → pyLower p.1 ≠ "allow" →
      pyLower p.1 ≠ "access-control-allow-methods" →
      (optionsAugment status hs)[i]? = some p) ∧
    (∀ (i : Nat) (p : String × String), hs[i]? = some p → strContains p.2 "COPY" = true →
      (optionsAugment status hs)[i]? = some p) := by
  refine ⟨?_, ?_, ?_⟩
  · unfold optionsAugment
    by_cases hsu : is_success status = true
    · simp only [if_pos hsu, List.map_map]
      apply List.map_congr_left
      intro p _
      exact optionsAugmentPair_idem p
    · simp only [if_neg hsu]
  · intro i p hp hallow hacam
    unfold optionsAugment
    by_cases hsu : is_success status = true
    · rw [if_pos hsu, List.getElem?_map, hp]
      have : optionsAugmentPair p = p := by
        unfold optionsAugmentPair
        rw [if_neg (by simp [hacam]), if_neg (by simp [hallow])]
      rw [Option.map_some', this]
    · rw [if_neg hsu]; exact hp
  · intro i p hp hcontains
    unfold optionsAugment
    by_cases hsu : is_success status = true
    · rw [if_pos hsu, List.getElem?_map, hp]
      have : optionsAugmentPair p = p := by
        unfold optionsAugmentPair
        rw [if_neg (by simp [hcontains]), if_neg (by simp [hcontains])]
      rw [Option.map_some', this]
    · rw [if_neg hsu]; exact hp

/-- C8 (amended): an upload status of 200, 201 or 202 triggers a replay of
the original request, whose response is returned; any other status —
including other 2xx codes — is a migration failure surfaced as a 404 with an
X-Migration-Status diagnostic header. -/
theorem C8_theorem (drv : MigDriver) (migrate : MigDriver → Except String Nat)
    (replay : Resp) (status : Nat) (hm : migrate drv = .ok status) :
    ((status = 200 ∨ status = 201 ∨ status = 202) →
      GETorHEAD_miss (.ok drv) migrate replay = .ok replay) ∧
    (¬(status = 200 ∨ status = 201 ∨ status = 202) →
      GETorHEAD_miss (.ok drv) migrate replay =
        .error (.dataMigrationError
          ("Failed to create local object." ++ "Status " ++ toString status)) ∧
      (migration_miss_to_client (GETorHEAD_miss (.ok drv) migrate replay)).status = 404 ∧
      (hGet (migration_miss_to_client (GETorHEAD_miss (.ok drv) migrate replay)).headers
        "X-Migration-Status").isSome = true) := by
  constructor
  · intro h
    unfold GETorHEAD_miss
    dsimp only
    rw [hm]
    simp only [if_pos h]
  · intro h
    have he : GETorHEAD_miss (.ok drv) migrate replay =
        .error (.dataMigrationError
          ("Failed to create local object." ++ "Status " ++ toString status)) := by
      unfold GETorHEAD_miss
      dsimp only
      rw [hm]
      simp only [if_neg h]
    refine ⟨he, ?_, ?_⟩ <;> rw [he] <;> rfl

/-- C8 counterexample: 204 is a 2xx success status, yet the migration
orchestrator treats it as a failure instead of replaying the original
request. -/
theorem C8_counterexample :
    (200 ≤ 204 ∧ 204 ≤ 299) ∧
    GETorHEAD_miss (.ok (.swiftDriver "s" "" "" "")) (fun _ => .ok 204) replayRespExample =
      .error (.dataMigrationError "Failed to create local object.Status 204") ∧
    GETorHEAD_miss (.ok (.swiftDriver "s" "" "" "")) (fun _ => .ok 204) replayRespExample ≠
      .ok replayRespExample ∧
    (migration_miss_to_client
      (GETorHEAD_miss (.ok (.swiftDriver "s" "" "" "")) (fun _ => .ok 204) replayRespExample)).status
      = 404 := by
  refine ⟨by decide, by decide, by decide, by decide⟩

/-- C8 witness. -/
theorem C8_witness :
    GETorHEAD_miss (.ok (.swiftDriver "s" "" "" "")) (fun _ => .ok 201) replayRespExample =
      .ok replayRespExample :=
  (C8_theorem (.swiftDriver "s" "" "" "") (fun _ => .ok 201) replayRespExample 201 rfl).1
    (Or.inr (Or.inl rfl))

/-- C3 (amended): remote_driver_resolver does not require the declared keys
to be present in container metadata — a missing key is substituted with the
empty string and the driver is constructed anyway.  For a registered, loaded
swift-driver entry the resolver always returns the constructed driver, its
token_url empty when migration-token-url is absent. -/
theorem C3_theorem (md : List (String × String)) (conf : MigrationConf) (e : MigEntry)
    (hfind : assocFind conf (pyLower (lookupD md "migration-provider" "")) = some e)
    (hload : e.driver_loaded = true)
    (hclass : e.the_class = SwiftAccessDriverClass)
    (hkeys : e.keys = ["token-url", "user", "key"])
    (haddl : e.additional_params = [])
    (hmiss : assocFind md "migration-token-url" = none) :
    remote_driver_resolver md conf =
      .ok (.swiftDriver (pyLower (lookupD md "migration-source" ""))
        "" (lookupD md "migration-user" "") (lookupD md "migration-key" "")) := by
  unfold remote_driver_resolver
  dsimp only
  rw [hfind]
  dsimp only
  rw [hload]
  simp only [if_true]
  unfold buildParams
  rw [hkeys, haddl, hclass]
  simp only [List.foldl_cons, List.foldl_nil]
  unfold SwiftAccessDriverClass
  dsimp only
  have hzero : lookupD md ("migration-" ++ "token-url") "" = "" := by
    unfold lookupD
    rw [show ("migration-" ++ "token-url" : String) = "migration-token-url" from rfl, hmiss]
    rfl
  rw [hzero]
  rfl

/-- C3 counterexample: with every declared required key absent from the
container metadata, the resolver still constructs and returns a driver
instead of raising DataMigrationError. -/
theorem C3_counterexample :
    (assocFind mdMissingKeys "migration-token-url").isNone = true ∧
    (assocFind mdMissingKeys "migration-user").isNone = true ∧
    (assocFind mdMissingKeys "migration-key").isNone = true ∧
    remote_driver_resolver mdMissingKeys confSwiftExample =
      .ok (.swiftDriver "src" "" "" "") := by
  refine ⟨rfl, rfl, rfl, by decide⟩

/-- C3 witness. -/
theorem C3_witness :
    remote_driver_resolver mdMissingKeys confSwiftExample =
      .ok (.swiftDriver (pyLower (lookupD mdMissingKeys "migration-source" ""))
        "" (lookupD mdMissingKeys "migration-user" "") (lookupD mdMissingKeys "migration-key" "")) :=
  C3_theorem mdMissingKeys confSwiftExample
    { keys := ["token-url", "user", "key"], the_class := SwiftAccessDriverClass,
      driver_loaded := true, additional_params := [] }
    rfl rfl rfl rfl rfl rfl

/-- On a container-level PUT/POST the middleware's early-return value is the
setup validation of the request headers. -/
theorem setup_check_reduces (conf : MigrationConf) (req : Req) (v a c : String)
    (hpath : split_path_3_4 req.segs = some (v, a, c, none))
    (hm : req.method = "PUT" ∨ req.method = "POST") :
    data_migration_setup_check conf req = migration_setup_validate conf req.headers := by
  unfold data_migration_setup_check
  rw [hpath]
  dsimp only
  rw [if_pos ⟨rfl, hm⟩]

/-- C1 (amended): on container-level PUT/POST, a Provider header without a
Source header (or vice versa) draws the 412 precondition response naming the
missing field; when both are present with non-empty values, an unregistered
provider or an unloaded driver draws the 400 bad-request response.  (With an
empty present value the pairing checks fire first, so the 400 requires
non-empty values.) -/
theorem C1_theorem (conf : MigrationConf) (req : Req) (v a c : String)
    (hpath : split_path_3_4 req.segs = some (v, a, c, none))
    (hm : req.method = "PUT" ∨ req.method = "POST") :
    (∀ p, hGet req.headers "X-Container-Migration-Provider" = some p →
      hGet req.headers "X-Container-Migration-Source" = none →
      data_migration_setup_check conf req =
        some (.preconditionFailed "Migration source is missing")) ∧
    (∀ s, hGet req.headers "X-Container-Migration-Provider" = none →
      hGet req.headers "X-Container-Migration-Source" = some s →
      data_migration_setup_check conf req =
        some (.preconditionFailed "Migration provider is missing")) ∧
    (∀ p s, hGet req.headers "X-Container-Migration-Provider" = some p → p ≠ "" →
      hGet req.headers "X-Container-Migration-Source" = some s → s ≠ "" →
      (assocFind conf p = none →
        data_migration_setup_check conf req = some (.badRequest "Invalid provider")) ∧
      (∀ e, assocFind conf p = some e → e.driver_loaded = false →
        data_migration_setup_check conf req = some (.badRequest "Invalid access driver"))) := by
  rw [setup_check_reduces conf req v a c hpath hm]
  refine ⟨?_, ?_, ?_⟩
  · intro p hp hsrc
    simp [migration_setup_validate, hp, hsrc, pyFalsyO, pyTruthyO]
  · intro s hpn hs
    simp [migration_setup_validate, hpn, hs, pyFalsyO, pyTruthyO]
  · intro p s hp hpne hs hsne
    constructor
    · intro hconf
      simp [migration_setup_validate, hp, hs, pyFalsyO, pyTruthyO, hpne, hsne, hconf]
    · intro e hconf hload
      simp [migration_setup_validate, hp, hs, pyFalsyO, pyTruthyO, hpne, hsne, hconf, hload]

/-- C2 (amended): the setup validation cross-checks only Provider and Source;
X-Container-Migration-Active is never inspected, so a setup request that
supplies a registered, loaded provider and a source — with every declared key
present and every static parameter non-blank — passes validation and is
forwarded even though Active is absent. -/
theorem C2_theorem (conf : MigrationConf) (req : Req) (v a c : String) (p s : String)
    (e : MigEntry)
    (hpath : split_path_3_4 req.segs = some (v, a, c, none))
    (hm : req.method = "PUT" ∨ req.method = "POST")
    (_hactive : hGet req.headers "X-Container-Migration-Active" = none)
    (hp : hGet req.headers "X-Container-Migration-Provider" = some p) (hpne : p ≠ "")
    (hs : hGet req.headers "X-Container-Migration-Source" = some s) (hsne : s ≠ "")
    (hconf : assocFind conf p = some e)
    (hload : e.driver_loaded = true)
    (hkeys : ∀ k ∈ e.keys, hGet req.headers ("X-Container-Migration-" ++ pyTitle k) ≠ none)
    (haddl : ∀ kv ∈ e.additional_params, pyStrip kv.2 ≠ "") :
    data_migration_setup_check conf req = none := by
  rw [setup_check_reduces conf req v a c hpath hm]
  have hkfind : e.keys.find?
      (fun k => (hGet req.headers ("X-Container-Migration-" ++ pyTitle k)).isNone) = none :=
    List.find?_eq_none.mpr (fun k hk hb =>
      hkeys k hk (Option.isNone_iff_eq_none.mp hb))
  have hafind : e.additional_params.find? (fun kv => pyStrip kv.2 = "") = none :=
    List.find?_eq_none.mpr (fun kv hkv hb => haddl kv hkv (of_decide_eq_true hb))
  simp [migration_setup_validate, hp, hs, pyFalsyO, pyTruthyO, hpne, hsne, hconf, hload,
    hkfind, hafind]

/-- C1 counterexample: both headers are present and the provider is not
registered, but because the Source value is empty the middleware answers 412
'Migration source is missing' instead of the 400 the claim requires. -/
theorem C1_counterexample :
    (hGet reqSetupEmptySource.headers "X-Container-Migration-Provider").isSome = true ∧
    (hGet reqSetupEmptySource.headers "X-Container-Migration-Source").isSome = true ∧
    (assocFind confFsExample "bad").isNone = true ∧
    data_migration_setup_check confFsExample reqSetupEmptySource =
      some (.preconditionFailed "Migration source is missing") ∧
    (data_migration_setup_check confFsExample reqSetupEmptySource).map SetupErr.statusCode =
      some 412 ∧
    (data_migration_setup_check confFsExample reqSetupEmptySource).map SetupErr.statusCode ≠
      some 400 := by
  exact ⟨rfl, rfl, rfl, by decide, by decide, by decide⟩

/-- C1 witness. -/
theorem C1_witness :
    data_migration_setup_check confFsExample reqSetupBadProvider =
      some (.badRequest "Invalid provider") :=
  ((C1_theorem confFsExample reqSetupBadProvider "v1" "AUTH_test" "cont" rfl (Or.inl rfl)).2.2
    "fiction" "src" rfl (by decide) rfl (by decide)).1 rfl

/-- C2 counterexample: Provider and Source are supplied but
X-Container-Migration-Active is omitted, and the setup call passes validation
(no precondition error response) instead of being rejected. -/
theorem C2_counterexample :
    hGet reqSetupNoActive.headers "X-Container-Migration-Active" = none ∧
    (hGet reqSetupNoActive.headers "X-Container-Migration-Provider").isSome = true ∧
    (hGet reqSetupNoActive.headers "X-Container-Migration-Source").isSome = true ∧
    data_migration_setup_check confFsExample reqSetupNoActive = none := by
  refine ⟨by decide, rfl, rfl, by decide⟩

/-- C2 witness. -/
theorem C2_witness : data_migration_setup_check confFsExample reqSetupNoActive = none :=
  C2_theorem confFsExample reqSetupNoActive "v1" "AUTH_test" "cont" "fsystem" "a/b"
    { keys := [], the_class := FileSystemAccessDriverClass, driver_loaded := true,
      additional_params := [("driver_fsystem_parent_path", "/tmp/")] }
    rfl (Or.inl rfl) (by decide) rfl (by decide) rfl (by decide) rfl rfl
    (by intro k hk; cases hk) (by intro kv hkv; rw [List.mem_singleton.mp hkv]; decide)

theorem error_ne_ok (e : PyExn) (o : SSCOut) : (Except.error e : Except PyExn SSCOut) ≠ .ok o :=
  fun h => Except.noConfusion h

theorem okOut_ne_of_resp_status (o1 o2 : SSCOut) (h : o1.resp.status ≠ o2.resp.status) :
    (Except.ok o1 : Except PyExn SSCOut) ≠ .ok o2 :=
  fun he => h (by rw [Except.ok.inj he])

theorem okOut_ne_of_fetch_len (o1 o2 : SSCOut) (h : o1.fetchReqs.length ≠ o2.fetchReqs.length) :
    (Except.ok o1 : Except PyExn SSCOut) ≠ .ok o2 :=
  fun he => h (by rw [Except.ok.inj he])

theorem split_path_4_4_shape {segs : List String} {v a c o : String}
    (h : split_path_4_4 segs = some (v, a, c, o)) : ∃ rest, segs = v :: a :: c :: rest := by
  cases segs with
  | nil => simp [split_path_4_4] at h
  | cons x t1 =>
    cases t1 with
    | nil => simp [split_path_4_4] at h
    | cons y t2 =>
      cases t2 with
      | nil => simp [split_path_4_4] at h
      | cons z rest =>
        unfold split_path_4_4 at h
        dsimp only at h
        by_cases hc : x ≠ "" ∧ y ≠ "" ∧ z ≠ "" ∧ joinSlash rest ≠ ""
        · rw [if_pos hc] at h
          cases h
          exact ⟨rest, rfl⟩
        · rw [if_neg hc] at h
          exact absurd h (by simp)

/-- C4 (amended): a PUT carrying a truthy X-Copy-From whose Content-Length
parses to a nonzero integer is answered 400 'Copy requests require a zero
byte body' with no sub-request issued; a COPY request, however, has its
Content-Length overwritten with zero during rewriting, so it is never
answered with that 400 — whatever its original content length. -/
theorem C4_theorem (pac : Bool) (maxFS : Nat) (app fetch put : Req → Resp)
    (hook : Req → Resp → Req → Resp) (req : Req) (v a c o : String)
    (hsplit : split_path_4_4 req.segs = some (v, a, c, o)) :
    (∀ s n, req.method = "PUT" → pyTruthyO (hGet req.headers "X-Copy-From") = true →
      hGet req.headers "Content-Length" = some s → pyInt? s = some n → n ≠ 0 →
      ssc_call pac maxFS app fetch put hook req =
        .ok { resp := resp400ZeroBody, fetchReqs := [], putReqs := [], appReqs := [] }) ∧
    (req.method = "COPY" →
      ssc_call pac maxFS app fetch put hook req ≠
        .ok { resp := resp400ZeroBody, fetchReqs := [], putReqs := [], appReqs := [] }) := by
  constructor
  · intro s n hm hcf hcl hparse hnz
    unfold ssc_call
    rw [hsplit]
    dsimp only
    rw [if_pos ⟨hm, hcf⟩]
    unfold handle_PUT
    dsimp only
    rw [hcl]
    dsimp only
    rw [hparse]
    dsimp only
    rw [if_pos hnz]
  · intro hm heq
    unfold ssc_call at heq
    rw [hsplit] at heq
    dsimp only at heq
    rw [hm] at heq
    rw [if_neg (fun hco => absurd hco.1 (by decide))] at heq
    rw [if_pos rfl] at heq
    unfold handle_COPY at heq
    dsimp only at heq
    by_cases hdst : pyTruthyO (hGet req.headers "Destination") = true
    · rw [if_neg (by rw [hdst]; exact fun hf => hf rfl)] at heq
      revert heq
      split
      · exact fun heq => Except.noConfusion heq
      · rename_i destAcct usedDA hda
        split
        · exact fun heq => Except.noConfusion heq
        · rename_i destCont destObj hdest
          unfold handle_PUT
          dsimp only
          rw [hGet_hDel_ne _ _ _ (by decide), hGet_hSet_ne _ _ _ _ (by decide),
            hGet_hSet_eq _ _ _ _ (by decide)]
          dsimp only
          rw [show pyInt? "0" = some 0 from rfl]
          dsimp only
          rw [if_neg (by decide)]
          split
          · exact fun heq => Except.noConfusion heq
          · split
            · exact fun heq => Except.noConfusion heq
            · rename_i srcCont srcObj hcfh
              refine okOut_ne_of_fetch_len _ _ ?_
              rw [copy_fetchReqs]
              simp
    · rw [if_pos (by rw [Bool.not_eq_true] at hdst; rw [hdst]; exact fun hf => Bool.noConfusion hf)] at heq
      exact okOut_ne_of_resp_status _ _ (by decide) heq

/-- C4 counterexample: a COPY request with content-length 5 is not rejected
with the 400 zero-body error; it proceeds and issues one source-fetch and one
sink-PUT sub-request, answering 201. -/
theorem C4_counterexample :
    hGet reqCopyWithBody.headers "Content-Length" = some "5" ∧
    pyInt? "5" = some 5 ∧ ((5 : Int) ≠ 0) ∧
    (ssc_call true 1000 appNotFound fetchOK putCreated hookId reqCopyWithBody).map
      (fun out => (out.resp.status, out.fetchReqs.length, out.putReqs.length)) =
      .ok (201, 1, 1) := by
  exact ⟨rfl, rfl, by decide, by decide⟩

/-- C4 witness. -/
theorem C4_witness :
    ssc_call true 1000 appNotFound fetchOK putCreated hookId reqPutCopyBody =
      .ok { resp := resp400ZeroBody, fetchReqs := [], putReqs := [], appReqs := [] } :=
  (C4_theorem true 1000 appNotFound fetchOK putCreated hookId reqPutCopyBody
    "v1" "a" "c" "o" rfl).1 "5" 5 rfl (by decide) rfl rfl (by decide)

/-- C5 counterexample: in fresh-metadata mode the client's user metadata is
not ignored — the sink keeps X-Object-Meta-A=2 and X-Object-Meta-B=3 from the
client, takes sysmeta S=9 from the source and drops the client's sysmeta C. -/
theorem C5_counterexample :
    config_true_value (hGetD reqPutCopyFresh.headers "x-fresh-metadata" "false") = true ∧
    (CopyHelper.copy 100 fetchOK putCreated hookId "/v1/a/c2/o2" reqPutCopyFresh).putReqs.map
      (fun sink => (hGet sink.headers "X-Object-Meta-A", hGet sink.headers "X-Object-Meta-B",
        hGet sink.headers "X-Object-Sysmeta-S", hGet sink.headers "X-Object-Sysmeta-C")) =
      [(some "2", some "3", some "9", none)] := by
  exact ⟨by decide, by decide⟩

/-- C5 witness. -/
theorem C5_witness :
    hGet (sinkFinal reqPutCopyNormal okSourceResp).headers "X-Object-Meta-A" = some "2" := by
  have hput := copy_success_putReqs 100 fetchOK putCreated hookId "/v1/a/c2/o2"
    reqPutCopyNormal okSourceResp 3 rfl rfl (by decide) (by decide)
  have h := (C5_theorem 100 fetchOK putCreated hookId "/v1/a/c2/o2" reqPutCopyNormal
      okSourceResp 3 "X-Object-Meta-A" rfl rfl (by decide) (by decide) (by decide) (by decide)).1
    ⟨rfl, rfl⟩ (sinkFinal reqPutCopyNormal okSourceResp)
    (by rw [hput]; exact List.mem_singleton.mpr rfl) (by decide)
  rw [h]
  rfl

/-- C6 counterexample: a 500 source response with indeterminate length is not
propagated unchanged — the middleware substitutes its own 413. -/
theorem C6_counterexample :
    (fetchNoLen (sourceRequest reqPutCopyNormal "/v1/a/c2/o2")).status = 500 ∧
    ¬ (200 ≤ 500 ∧ 500 ≤ 299) ∧
    (CopyHelper.copy 100 fetchNoLen putCreated hookId "/v1/a/c2/o2" reqPutCopyNormal).resp.status
      = 413 ∧
    (CopyHelper.copy 100 fetchNoLen putCreated hookId "/v1/a/c2/o2" reqPutCopyNormal).resp ≠
      fetchNoLen (sourceRequest reqPutCopyNormal "/v1/a/c2/o2") := by
  exact ⟨rfl, by decide, by decide, by decide⟩

/-- C6 witness. -/
theorem C6_witness :
    CopyHelper.copy 100 fetch500 putCreated hookId "/v1/a/c2/o2" reqPutCopyNormal =
      { resp := resp500Det,
        fetchReqs := [sourceRequest reqPutCopyNormal "/v1/a/c2/o2"],
        putReqs := [], appReqs := [] } :=
  C6_theorem 100 fetch500 putCreated hookId "/v1/a/c2/o2" reqPutCopyNormal resp500Det 4
    rfl rfl (by decide) (by decide)

/-- C7 witness. -/
theorem C7_witness :
    (CopyHelper.copy 100 fetchNoLen putCreated hookId "/v1/a/c2/o2" reqPutCopyNormal).resp =
      entityTooLargeResp ∧
    (CopyHelper.copy 100 fetchNoLen putCreated hookId "/v1/a/c2/o2" reqPutCopyNormal).resp.status
      = 413 ∧
    (CopyHelper.copy 100 fetchNoLen putCreated hookId "/v1/a/c2/o2" reqPutCopyNormal).putReqs
      = [] :=
  C7_theorem 100 fetchNoLen putCreated hookId "/v1/a/c2/o2" reqPutCopyNormal resp500NoLen
    rfl (Or.inl rfl)

/-- C9 witness. -/
theorem C9_witness :
    optionsAugment 200 (optionsAugment 200
      [("Allow", "GET, HEAD"), ("X-Other", "v"), ("Access-Control-Allow-Methods", "GET, COPY")]) =
      optionsAugment 200
        [("Allow", "GET, HEAD"), ("X-Other", "v"), ("Access-Control-Allow-Methods", "GET, COPY")] ∧
    (optionsAugment 200
      [("Allow", "GET, HEAD"), ("X-Other", "v"), ("Access-Control-Allow-Methods", "GET, COPY")])[1]?
      = some ("X-Other", "v") :=
  ⟨(C9_theorem 200 _).1,
    (C9_theorem 200 [("Allow", "GET, HEAD"), ("X-Other", "v"),
      ("Access-Control-Allow-Methods", "GET, COPY")]).2.1 1 ("X-Other", "v") rfl
      (by decide) (by decide)⟩

/-- C10: handle_PUT's zero-body check evaluates
int(req.headers['Content-Length']) unconditionally.  For a routed
PUT-with-X-Copy-From request it raises KeyError when Content-Length is
absent and ValueError when it is not an integer literal — no HTTP error
response is produced — and the 400 zero-body response arises exactly when
Content-Length is present, parseable and nonzero. -/
theorem C10_theorem (pac : Bool) (maxFS : Nat) (app fetch put : Req → Resp)
    (hook : Req → Resp → Req → Resp) (req : Req) (v a c o : String)
    (hsplit : split_path_4_4 req.segs = some (v, a, c, o))
    (hm : req.method = "PUT")
    (hcf : pyTruthyO (hGet req.headers "X-Copy-From") = true) :
    (hGet req.headers "Content-Length" = none →
      ssc_call pac maxFS app fetch put hook req = .error (.keyError "Content-Length")) ∧
    (∀ s, hGet req.headers "Content-Length" = some s → pyInt? s = none →
      ssc_call pac maxFS app fetch put hook req = .error (.valueError s)) ∧
    (∀ s n, hGet req.headers "Content-Length" = some s → pyInt? s = some n → n ≠ 0 →
      ssc_call pac maxFS app fetch put hook req =
        .ok { resp := resp400ZeroBody, fetchReqs := [], putReqs := [], appReqs := [] }) ∧
    (∀ s, hGet req.headers "Content-Length" = some s → pyInt? s = some 0 →
      ssc_call pac maxFS app fetch put hook req ≠
        .ok { resp := resp400ZeroBody, fetchReqs := [], putReqs := [], appReqs := [] }) := by
  have hroute : ssc_call pac maxFS app fetch put hook req =
      handle_PUT maxFS fetch put hook { req with envOrigMethod := some req.method } := by
    unfold ssc_call
    rw [hsplit]
    dsimp only
    rw [if_pos ⟨hm, hcf⟩]
  refine ⟨?_, ?_, ?_, ?_⟩
  · intro hcl
    rw [hroute]
    unfold handle_PUT
    dsimp only
    rw [hcl]
  · intro s hcl hparse
    rw [hroute]
    unfold handle_PUT
    dsimp only
    rw [hcl]
    dsimp only
    rw [hparse]
  · intro s n hcl hparse hnz
    rw [hroute]
    unfold handle_PUT
    dsimp only
    rw [hcl]
    dsimp only
    rw [hparse]
    dsimp only
    rw [if_pos hnz]
  · intro s hcl hparse heq
    rw [hroute] at heq
    unfold handle_PUT at heq
    dsimp only at heq
    rw [hcl] at heq
    dsimp only at heq
    rw [hparse] at heq
    dsimp only at heq
    rw [if_neg (by decide)] at heq
    obtain ⟨rest, hsegs⟩ := split_path_4_4_shape hsplit
    rw [hsegs] at heq
    revert heq
    dsimp only
    split
    · exact fun heq => Except.noConfusion heq
    · split
      · exact fun heq => Except.noConfusion heq
      · refine fun heq => okOut_ne_of_fetch_len _ _ ?_ heq
        rw [copy_fetchReqs]
        simp

/-- C10 witness. -/
theorem C10_witness :
    ssc_call true 1000 appNotFound fetchOK putCreated hookId reqPutCopyNoLen =
      .error (.keyError "Content-Length") ∧
    ssc_call true 1000 appNotFound fetchOK putCreated hookId reqPutCopyBadLen =
      .error (.valueError "abc") :=
  ⟨(C10_theorem true 1000 appNotFound fetchOK putCreated hookId reqPutCopyNoLen
      "v1" "a" "c" "o" rfl rfl (by decide)).1 rfl,
    (C10_theorem true 1000 appNotFound fetchOK putCreated hookId reqPutCopyBadLen
      "v1" "a" "c" "o" rfl rfl (by decide)).2.1 "abc" rfl rfl⟩
